import Mathlib

/-!
Shallow embedding of the transfer execution engine of khuongkd/simplebank
(`db/sqlc/store.go` together with the generated sqlc query layer).

The database is modelled as an explicit state: the `accounts` table is a map
from primary key to row, the `transfers` and `entries` tables are append-only
lists, and sequence counters provide fresh primary keys.  Each sqlc query
(`CreateTransfer`, `CreateEntry`, `AddAccountBalance`) is a state transformer
returning the row the SQL `RETURNING *` clause yields plus an optional error.
Store-level failures (connection loss, constraint violations, injected test
faults) are modelled by a `Faults` record saying which statement fails.

A crucial point of the source, reproduced faithfully here: the closure that
`TransferTx` passes to `execTx` declares a `*Queries` parameter but never
names or uses it — every query inside the closure is invoked on `store`
itself, i.e. on the base (auto-committing) connection, not on the
transaction-scoped handle `db := New(tx)` that `execTx` creates.  The
transaction that `execTx` begins therefore never contains any statement, and
rolling it back does not undo the closure's writes.  The embedding of
`execTx` keeps the closure's state changes on every path for this reason.
-/

namespace SimpleBank

/-- Row of the `accounts` table (timestamps omitted; no claim mentions them). -/
structure Account where
  id : Int
  owner : String
  balance : Int
  currency : String
deriving Repr, DecidableEq

/-- Row of the `transfers` table. -/
structure Transfer where
  id : Int
  fromAccountID : Int
  toAccountID : Int
  amount : Int
deriving Repr, DecidableEq

/-- Row of the `entries` table. -/
structure Entry where
  id : Int
  accountID : Int
  amount : Int
deriving Repr, DecidableEq

/-- Parameters of the sqlc query `CreateTransfer`. -/
structure CreateTransferParams where
  fromAccountID : Int
  toAccountID : Int
  amount : Int
deriving Repr, DecidableEq

/-- Parameters of the sqlc query `CreateEntry`. -/
structure CreateEntryParams where
  accountID : Int
  amount : Int
deriving Repr, DecidableEq

/-- Parameters of the sqlc query `AddAccountBalance`. -/
structure AddAccountBalanceParams where
  amount : Int
  id : Int
deriving Repr, DecidableEq

/-- The database state.  `updateLog` is a ghost trace recording, in order,
every issued `AddAccountBalance` statement as a pair (account id, signed
delta); it exists only to state ordering properties and is written by no
other operation. -/
structure DBState where
  accounts : Int → Option Account
  transfers : List Transfer
  entries : List Entry
  nextTransferID : Int
  nextEntryID : Int
  updateLog : List (Int × Int)

/-- Errors surfaced by the store layer and by `execTx`.  `txRb` embeds the
composite `fmt.Errorf("txErr: %v, rbErr: %v", err, errRb)` built when a
rollback fails after a step error: it carries both causes. -/
inductive Err where
  | beginFailed : Err
  | commitFailed : Err
  | rollbackFailed : Err
  | noRows : Err
  | injected : Nat → Err
  | txRb : Err → Err → Err
deriving Repr, DecidableEq

/-- Fault injection: which store operation fails during one execution.
`failBalanceFirst` / `failBalanceSecond` refer to the first and second
`AddAccountBalance` statement issued by `AddAccountBalanceOrder`. -/
structure Faults where
  beginFails : Bool
  commitFails : Bool
  rollbackFails : Bool
  failCreateTransfer : Bool
  failCreateFromEntry : Bool
  failCreateToEntry : Bool
  failBalanceFirst : Bool
  failBalanceSecond : Bool
deriving Repr, DecidableEq

/-- The fault-free execution. -/
def noFaults : Faults := ⟨false, false, false, false, false, false, false, false⟩

/-- Zero value of `Account` (Go `Account{}`). -/
def zeroAccount : Account := ⟨0, "", 0, ""⟩

/-- Zero value of `Transfer` (Go `Transfer{}`). -/
def zeroTransfer : Transfer := ⟨0, 0, 0, 0⟩

/-- Zero value of `Entry` (Go `Entry{}`). -/
def zeroEntry : Entry := ⟨0, 0, 0⟩

/-- `CreateTransfer`: `INSERT INTO transfers(from_account_id, to_account_id,
amount) VALUES ($1, $2, $3) RETURNING *` (db/query/transfer.sql).  On failure
nothing is inserted and the zero row is returned with the error. -/
def createTransfer (fail : Bool) (s : DBState) (p : CreateTransferParams) :
    Transfer × DBState × Option Err :=
  if fail then (zeroTransfer, s, some (Err.injected 0))
  else
    let t : Transfer := ⟨s.nextTransferID, p.fromAccountID, p.toAccountID, p.amount⟩
    (t, { s with transfers := s.transfers ++ [t], nextTransferID := s.nextTransferID + 1 },
      none)

/-- `CreateEntry`: `INSERT INTO entries(account_id, amount) VALUES ($1, $2)
RETURNING *` (db/query/entries part of the query files).  `tag` distinguishes
the two call sites in the injected error. -/
def createEntry (fail : Bool) (tag : Nat) (s : DBState) (p : CreateEntryParams) :
    Entry × DBState × Option Err :=
  if fail then (zeroEntry, s, some (Err.injected tag))
  else
    let e : Entry := ⟨s.nextEntryID, p.accountID, p.amount⟩
    (e, { s with entries := s.entries ++ [e], nextEntryID := s.nextEntryID + 1 }, none)

/-- Modelled from the spec: the generated sqlc query `AddAccountBalance` is
not under src/; §6 of the spec gives its contract,
`AddAccountBalance(accountID, signedDelta) → Account (post-update row)`, and
§4.2 step 4 fixes the server-side update `balance = balance + delta`
(`UPDATE accounts SET balance = balance + $1 WHERE id = $2 RETURNING *`).
When no row has the given id the statement returns no row (`sql.ErrNoRows`).
The issued statement is recorded on the ghost `updateLog` before its outcome
is decided. -/
def addAccountBalance (fail : Bool) (tag : Nat) (s : DBState)
    (p : AddAccountBalanceParams) : Account × DBState × Option Err :=
  let s0 : DBState := { s with updateLog := s.updateLog ++ [(p.id, p.amount)] }
  if fail then (zeroAccount, s0, some (Err.injected tag))
  else
    match s.accounts p.id with
    | none => (zeroAccount, s0, some Err.noRows)
    | some a =>
      let a2 : Account := { a with balance := a.balance + p.amount }
      (a2, { s0 with accounts := fun j => if j = p.id then some a2 else s.accounts j },
        none)

/-- `AddAccountBalanceOrder` (store.go, lines 99–142): if
`account1ID < account2ID` the source (from) account is updated first with
`-amount`, then the destination with `+amount`; otherwise the destination is
updated first with `+amount`, then the source with `-amount`.  Go named
returns make a failed call leave the other named return at its zero value. -/
def AddAccountBalanceOrder (f : Faults) (s : DBState)
    (account1ID account2ID amount : Int) :
    Account × Account × DBState × Option Err :=
  if account1ID < account2ID then
    let r1 := addAccountBalance f.failBalanceFirst 3 s ⟨-amount, account1ID⟩
    match r1.2.2 with
    | some err => (r1.1, zeroAccount, r1.2.1, some err)
    | none =>
      let r2 := addAccountBalance f.failBalanceSecond 4 r1.2.1 ⟨amount, account2ID⟩
      (r1.1, r2.1, r2.2.1, r2.2.2)
  else
    let r1 := addAccountBalance f.failBalanceFirst 3 s ⟨amount, account2ID⟩
    match r1.2.2 with
    | some err => (zeroAccount, r1.1, r1.2.1, some err)
    | none =>
      let r2 := addAccountBalance f.failBalanceSecond 4 r1.2.1 ⟨-amount, account1ID⟩
      (r2.1, r1.1, r2.2.1, r2.2.2)

/-- The result struct returned by `TransferTx` (store.go, lines 47–53). -/
structure TransferTxResult where
  transfer : Transfer
  fromAccount : Account
  toAccount : Account
  fromEntry : Entry
  toEntry : Entry
deriving Repr, DecidableEq

/-- Zero value of `TransferTxResult`. -/
def zeroResult : TransferTxResult := ⟨zeroTransfer, zeroAccount, zeroAccount, zeroEntry, zeroEntry⟩

/-- `execTx` (store.go, lines 28–45): begin a transaction, run the step,
commit on success, roll back on a step error; if the rollback itself fails,
return the composite of the step error and the rollback error.  The closure
that `TransferTx` passes in ignores the transaction-scoped `*Queries` handle
and runs every statement on the base store, so the step's state changes are
kept on every path here — the opened transaction itself is empty and its
rollback or commit changes nothing. -/
def execTx {α : Type} (f : Faults) (r0 : α)
    (fn : DBState → α × DBState × Option Err) (s : DBState) :
    α × DBState × Option Err :=
  if f.beginFails then (r0, s, some Err.beginFailed)
  else
    let r := fn s
    match r.2.2 with
    | some err =>
      if f.rollbackFails then (r.1, r.2.1, some (Err.txRb err Err.rollbackFailed))
      else (r.1, r.2.1, some err)
    | none =>
      if f.commitFails then (r.1, r.2.1, some Err.commitFailed) else (r.1, r.2.1, none)

/-- The step sequence of `TransferTx` (store.go, lines 60–94): create the
transfer row, the source entry (`-transfer.Amount`), the destination entry
(`+transfer.Amount`), then both balance updates via
`AddAccountBalanceOrder`.  The captured `result` is filled field by field as
the steps succeed, and the balance step assigns `result.FromAccount` and
`result.ToAccount` whatever `AddAccountBalanceOrder` returns, error or not. -/
def transferTxBody (f : Faults) (p : CreateTransferParams) (s : DBState) :
    TransferTxResult × DBState × Option Err :=
  let r1 := createTransfer f.failCreateTransfer s p
  match r1.2.2 with
  | some err => (zeroResult, r1.2.1, some err)
  | none =>
    let transfer := r1.1
    let r2 := createEntry f.failCreateFromEntry 1 r1.2.1
      ⟨transfer.fromAccountID, -transfer.amount⟩
    match r2.2.2 with
    | some err => ({ zeroResult with transfer := transfer }, r2.2.1, some err)
    | none =>
      let r3 := createEntry f.failCreateToEntry 2 r2.2.1
        ⟨transfer.toAccountID, transfer.amount⟩
      match r3.2.2 with
      | some err =>
        ({ zeroResult with transfer := transfer, fromEntry := r2.1 }, r3.2.1, some err)
      | none =>
        let r4 := AddAccountBalanceOrder f r3.2.1 p.fromAccountID p.toAccountID p.amount
        (⟨transfer, r4.1, r4.2.1, r2.1, r3.1⟩, r4.2.2.1, r4.2.2.2)

/-- `TransferTx` (store.go, lines 57–97): run the step sequence through
`execTx` and return the captured result together with the error. -/
def TransferTx (f : Faults) (p : CreateTransferParams) (s : DBState) :
    TransferTxResult × DBState × Option Err :=
  execTx f zeroResult (transferTxBody f p) s

/-- A small concrete table: account 1 holds 100, account 2 holds 50 (the
worked example of the spec, §8). -/
def demoAccounts : Int → Option Account := fun i =>
  if i = 1 then some ⟨1, "alice", 100, "USD"⟩
  else if i = 2 then some ⟨2, "bob", 50, "USD"⟩
  else none

/-- Concrete initial state over `demoAccounts` with empty tables. -/
def demoState : DBState := ⟨demoAccounts, [], [], 1, 1, []⟩

/-- A table containing a row for every account id, used to probe the
statement order of `AddAccountBalanceOrder` independently of a particular
database content. -/
def allAccounts : Int → Option Account := fun i => some ⟨i, "", 0, ""⟩

/-- Probe state over `allAccounts` with an empty update log. -/
def probeState : DBState := ⟨allAccounts, [], [], 1, 1, []⟩

/-- The sequence of account ids, in order, whose balance rows
`AddAccountBalanceOrder` updates — and therefore whose row locks a transfer
execution acquires — for a transfer of `amount` from `a` to `b`, read off
the ghost update log of a fault-free run. -/
def acquisitionIDs (a b amount : Int) : List Int :=
  ((AddAccountBalanceOrder noFaults probeState a b amount).2.2.1.updateLog).map Prod.fst

/-- One in-flight transfer execution seen as a lock-acquisition process:
`held` is the list of account-row locks it already holds, `want` those it
still needs, both in acquisition order. -/
structure LockProc where
  held : List Int
  want : List Int
deriving Repr, DecidableEq

/-! ### Helper lemmas about the query layer -/

theorem addAccountBalance_log (fail : Bool) (tag : Nat) (s : DBState)
    (p : AddAccountBalanceParams) :
    (addAccountBalance fail tag s p).2.1.updateLog = s.updateLog ++ [(p.id, p.amount)] := by
  rcases h : s.accounts p.id with _ | a <;> cases fail <;>
    simp [addAccountBalance, h]

theorem addAccountBalance_success (tag : Nat) (s : DBState)
    (p : AddAccountBalanceParams) (a : Account) (h : s.accounts p.id = some a) :
    addAccountBalance false tag s p =
      ({ a with balance := a.balance + p.amount },
       { s with
         accounts := fun j =>
           if j = p.id then some { a with balance := a.balance + p.amount }
           else s.accounts j,
         updateLog := s.updateLog ++ [(p.id, p.amount)] },
       none) := by
  simp [addAccountBalance, h]

theorem createTransfer_eq_none_inv (fail : Bool) (s : DBState)
    (p : CreateTransferParams) (h : (createTransfer fail s p).2.2 = none) :
    fail = false := by
  cases fail <;> simp [createTransfer] at h ⊢

theorem createEntry_eq_none_inv (fail : Bool) (tag : Nat) (s : DBState)
    (p : CreateEntryParams) (h : (createEntry fail tag s p).2.2 = none) :
    fail = false := by
  cases fail <;> simp [createEntry] at h ⊢

theorem addAccountBalance_eq_none_inv (fail : Bool) (tag : Nat) (s : DBState)
    (p : AddAccountBalanceParams) (h : (addAccountBalance fail tag s p).2.2 = none) :
    fail = false ∧ ∃ a, s.accounts p.id = some a := by
  cases fail <;> rcases hl : s.accounts p.id with _ | a <;>
    simp [addAccountBalance, hl] at h ⊢

theorem addAccountBalanceOrder_eq_none_inv (f : Faults) (s : DBState)
    (a b m : Int) (h : (AddAccountBalanceOrder f s a b m).2.2.2 = none) :
    f.failBalanceFirst = false ∧ f.failBalanceSecond = false := by
  unfold AddAccountBalanceOrder at h
  by_cases hab : a < b <;> simp only [hab, if_true, if_false] at h
  · rcases hr1 : (addAccountBalance f.failBalanceFirst 3 s ⟨-m, a⟩).2.2 with _ | err
    · rw [hr1] at h
      simp only [] at h
      exact ⟨(addAccountBalance_eq_none_inv _ _ _ _ hr1).1,
        (addAccountBalance_eq_none_inv _ _ _ _ h).1⟩
    · rw [hr1] at h
      simp at h
  · rcases hr1 : (addAccountBalance f.failBalanceFirst 3 s ⟨m, b⟩).2.2 with _ | err
    · rw [hr1] at h
      simp only [] at h
      exact ⟨(addAccountBalance_eq_none_inv _ _ _ _ hr1).1,
        (addAccountBalance_eq_none_inv _ _ _ _ h).1⟩
    · rw [hr1] at h
      simp at h

theorem execTx_eq_none_inv {α : Type} (f : Faults) (r0 : α)
    (fn : DBState → α × DBState × Option Err) (s : DBState)
    (h : (execTx f r0 fn s).2.2 = none) :
    f.beginFails = false ∧ (fn s).2.2 = none ∧ f.commitFails = false ∧
    execTx f r0 fn s = ((fn s).1, (fn s).2.1, none) := by
  cases hb : f.beginFails
  · rcases he : (fn s).2.2 with _ | err
    · cases hc : f.commitFails <;> simp [execTx, hb, he, hc] at h ⊢
    · cases hr : f.rollbackFails <;> simp [execTx, hb, he, hr] at h
  · simp [execTx, hb] at h

theorem addAccountBalance_transfers (fail : Bool) (tag : Nat) (s : DBState)
    (p : AddAccountBalanceParams) :
    (addAccountBalance fail tag s p).2.1.transfers = s.transfers := by
  cases fail <;> rcases h : s.accounts p.id with _ | a <;> simp [addAccountBalance, h]

theorem addAccountBalance_entries (fail : Bool) (tag : Nat) (s : DBState)
    (p : AddAccountBalanceParams) :
    (addAccountBalance fail tag s p).2.1.entries = s.entries := by
  cases fail <;> rcases h : s.accounts p.id with _ | a <;> simp [addAccountBalance, h]

theorem addAccountBalance_accounts_other (fail : Bool) (tag : Nat) (s : DBState)
    (p : AddAccountBalanceParams) (j : Int) (hj : j ≠ p.id) :
    (addAccountBalance fail tag s p).2.1.accounts j = s.accounts j := by
  cases fail <;> rcases h : s.accounts p.id with _ | a <;>
    simp [addAccountBalance, h, hj]

theorem addAccountBalanceOrder_transfers (f : Faults) (s : DBState)
    (a1 a2 m : Int) :
    (AddAccountBalanceOrder f s a1 a2 m).2.2.1.transfers = s.transfers := by
  unfold AddAccountBalanceOrder
  by_cases hab : a1 < a2 <;> simp only [hab, if_true, if_false]
  · rcases hr1 : (addAccountBalance f.failBalanceFirst 3 s ⟨-m, a1⟩).2.2 with _ | err <;>
      simp [addAccountBalance_transfers]
  · rcases hr1 : (addAccountBalance f.failBalanceFirst 3 s ⟨m, a2⟩).2.2 with _ | err <;>
      simp [addAccountBalance_transfers]

theorem addAccountBalanceOrder_entries (f : Faults) (s : DBState)
    (a1 a2 m : Int) :
    (AddAccountBalanceOrder f s a1 a2 m).2.2.1.entries = s.entries := by
  unfold AddAccountBalanceOrder
  by_cases hab : a1 < a2 <;> simp only [hab, if_true, if_false]
  · rcases hr1 : (addAccountBalance f.failBalanceFirst 3 s ⟨-m, a1⟩).2.2 with _ | err <;>
      simp [addAccountBalance_entries]
  · rcases hr1 : (addAccountBalance f.failBalanceFirst 3 s ⟨m, a2⟩).2.2 with _ | err <;>
      simp [addAccountBalance_entries]

theorem addAccountBalanceOrder_accounts_other (f : Faults) (s : DBState)
    (a1 a2 m : Int) (j : Int) (h1 : j ≠ a1) (h2 : j ≠ a2) :
    (AddAccountBalanceOrder f s a1 a2 m).2.2.1.accounts j = s.accounts j := by
  unfold AddAccountBalanceOrder
  by_cases hab : a1 < a2 <;> simp only [hab, if_true, if_false]
  · rcases hr1 : (addAccountBalance f.failBalanceFirst 3 s ⟨-m, a1⟩).2.2 with _ | err <;>
      simp [addAccountBalance_accounts_other, h1, h2]
  · rcases hr1 : (addAccountBalance f.failBalanceFirst 3 s ⟨m, a2⟩).2.2 with _ | err <;>
      simp [addAccountBalance_accounts_other, h1, h2]

theorem createTransfer_accounts (fail : Bool) (s : DBState)
    (p : CreateTransferParams) :
    (createTransfer fail s p).2.1.accounts = s.accounts := by
  cases fail <;> simp [createTransfer]

theorem createEntry_accounts (fail : Bool) (tag : Nat) (s : DBState)
    (p : CreateEntryParams) :
    (createEntry fail tag s p).2.1.accounts = s.accounts := by
  cases fail <;> simp [createEntry]

theorem transferTxBody_eq_none_flags (f : Faults) (p : CreateTransferParams)
    (s : DBState) (h : (transferTxBody f p s).2.2 = none) :
    f.failCreateTransfer = false ∧ f.failCreateFromEntry = false ∧
    f.failCreateToEntry = false ∧ f.failBalanceFirst = false ∧
    f.failBalanceSecond = false := by
  cases hft : f.failCreateTransfer <;>
    cases hf1 : f.failCreateFromEntry <;>
    cases hf2 : f.failCreateToEntry <;>
    simp [transferTxBody, createTransfer, createEntry, hft, hf1, hf2] at h ⊢
  exact addAccountBalanceOrder_eq_none_inv _ _ _ _ _ h

theorem execTx_proj {α : Type} (f : Faults) (r0 : α)
    (fn : DBState → α × DBState × Option Err) (s : DBState)
    (hb : f.beginFails = false) :
    (execTx f r0 fn s).1 = (fn s).1 ∧ (execTx f r0 fn s).2.1 = (fn s).2.1 := by
  cases hc : f.commitFails <;> cases hr : f.rollbackFails <;>
    rcases he : (fn s).2.2 with _ | err <;>
    simp [execTx, hb, hc, hr, he]

theorem transferTxBody_tables (f : Faults) (p : CreateTransferParams)
    (s : DBState) (hft : f.failCreateTransfer = false)
    (hf1 : f.failCreateFromEntry = false) (hf2 : f.failCreateToEntry = false) :
    (transferTxBody f p s).2.1.transfers =
      s.transfers ++ [⟨s.nextTransferID, p.fromAccountID, p.toAccountID, p.amount⟩] ∧
    (transferTxBody f p s).2.1.entries =
      s.entries ++ [⟨s.nextEntryID, p.fromAccountID, -p.amount⟩,
                    ⟨s.nextEntryID + 1, p.toAccountID, p.amount⟩] := by
  simp [transferTxBody, createTransfer, createEntry, hft, hf1, hf2,
    addAccountBalanceOrder_transfers, addAccountBalanceOrder_entries]

theorem transferTxBody_accounts_other (f : Faults) (p : CreateTransferParams)
    (s : DBState) (j : Int) (hj1 : j ≠ p.fromAccountID) (hj2 : j ≠ p.toAccountID) :
    (transferTxBody f p s).2.1.accounts j = s.accounts j := by
  cases hft : f.failCreateTransfer <;> cases hf1 : f.failCreateFromEntry <;>
    cases hf2 : f.failCreateToEntry <;>
    simp [transferTxBody, createTransfer, createEntry, hft, hf1, hf2,
      addAccountBalanceOrder_accounts_other, hj1, hj2]

theorem transferTxBody_transfers_grow (f : Faults) (p : CreateTransferParams)
    (s : DBState) :
    s.transfers <+: (transferTxBody f p s).2.1.transfers := by
  cases hft : f.failCreateTransfer <;> cases hf1 : f.failCreateFromEntry <;>
    cases hf2 : f.failCreateToEntry <;>
    simp [transferTxBody, createTransfer, createEntry, hft, hf1, hf2,
      addAccountBalanceOrder_transfers, List.prefix_append, List.prefix_rfl]

theorem transferTxBody_entries_grow (f : Faults) (p : CreateTransferParams)
    (s : DBState) :
    s.entries <+: (transferTxBody f p s).2.1.entries := by
  cases hft : f.failCreateTransfer <;> cases hf1 : f.failCreateFromEntry <;>
    cases hf2 : f.failCreateToEntry <;>
    simp [transferTxBody, createTransfer, createEntry, hft, hf1, hf2,
      addAccountBalanceOrder_entries, List.prefix_append, List.prefix_rfl]

/-- Full characterisation of a fault-free run of `TransferTx` on two
distinct existing accounts: the returned error, result struct, both updated
balances, the untouched rest of the accounts table, the appended transfer
and entry rows, the sequence counters, and the order of the issued balance
updates. -/
theorem transferTx_success_run (f : Faults) (p : CreateTransferParams)
    (s : DBState) (af at2 : Account)
    (hbg : f.beginFails = false) (hcm : f.commitFails = false)
    (hft : f.failCreateTransfer = false) (hf1 : f.failCreateFromEntry = false)
    (hf2 : f.failCreateToEntry = false) (hb1 : f.failBalanceFirst = false)
    (hb2 : f.failBalanceSecond = false)
    (hne : p.fromAccountID ≠ p.toAccountID)
    (hfa : s.accounts p.fromAccountID = some af)
    (hta : s.accounts p.toAccountID = some at2) :
    (TransferTx f p s).2.2 = none ∧
    (TransferTx f p s).1 =
      ⟨⟨s.nextTransferID, p.fromAccountID, p.toAccountID, p.amount⟩,
       { af with balance := af.balance + -p.amount },
       { at2 with balance := at2.balance + p.amount },
       ⟨s.nextEntryID, p.fromAccountID, -p.amount⟩,
       ⟨s.nextEntryID + 1, p.toAccountID, p.amount⟩⟩ ∧
    (TransferTx f p s).2.1.accounts p.fromAccountID =
      some { af with balance := af.balance + -p.amount } ∧
    (TransferTx f p s).2.1.accounts p.toAccountID =
      some { at2 with balance := at2.balance + p.amount } ∧
    (∀ j, j ≠ p.fromAccountID → j ≠ p.toAccountID →
      (TransferTx f p s).2.1.accounts j = s.accounts j) ∧
    (TransferTx f p s).2.1.transfers =
      s.transfers ++ [⟨s.nextTransferID, p.fromAccountID, p.toAccountID, p.amount⟩] ∧
    (TransferTx f p s).2.1.entries =
      s.entries ++ [⟨s.nextEntryID, p.fromAccountID, -p.amount⟩,
                    ⟨s.nextEntryID + 1, p.toAccountID, p.amount⟩] ∧
    (TransferTx f p s).2.1.nextTransferID = s.nextTransferID + 1 ∧
    (TransferTx f p s).2.1.nextEntryID = s.nextEntryID + 1 + 1 ∧
    (TransferTx f p s).2.1.updateLog =
      s.updateLog ++ (if p.fromAccountID < p.toAccountID
        then [(p.fromAccountID, -p.amount), (p.toAccountID, p.amount)]
        else [(p.toAccountID, p.amount), (p.fromAccountID, -p.amount)]) := by
  rcases lt_trichotomy p.fromAccountID p.toAccountID with hab | hab | hab
  · refine ⟨?_, ?_, ?_, ?_, ?_, ?_, ?_, ?_, ?_, ?_⟩ <;>
      first
      | (intro j hj1 hj2
         simp [TransferTx, execTx, transferTxBody, createTransfer, createEntry,
           AddAccountBalanceOrder, addAccountBalance, hbg, hcm, hft, hf1, hf2,
           hb1, hb2, hfa, hta, hab, hne, Ne.symm hne, hj1, hj2])
      | simp [TransferTx, execTx, transferTxBody, createTransfer, createEntry,
          AddAccountBalanceOrder, addAccountBalance, hbg, hcm, hft, hf1, hf2,
          hb1, hb2, hfa, hta, hab, hne, Ne.symm hne]
  · exact absurd hab hne
  · refine ⟨?_, ?_, ?_, ?_, ?_, ?_, ?_, ?_, ?_, ?_⟩ <;>
      first
      | (intro j hj1 hj2
         simp [TransferTx, execTx, transferTxBody, createTransfer, createEntry,
           AddAccountBalanceOrder, addAccountBalance, hbg, hcm, hft, hf1, hf2,
           hb1, hb2, hfa, hta, not_lt.mpr hab.le, hab.ne', hne, Ne.symm hne,
           hj1, hj2])
      | simp [TransferTx, execTx, transferTxBody, createTransfer, createEntry,
          AddAccountBalanceOrder, addAccountBalance, hbg, hcm, hft, hf1, hf2,
          hb1, hb2, hfa, hta, not_lt.mpr hab.le, hab.ne', hne, Ne.symm hne]

/-- Full characterisation of a fault-free run of `TransferTx` when source
and destination are the same existing account: the else branch of
`AddAccountBalanceOrder` applies `+amount` first and `-amount` second to the
single account, so the persisted balance is unchanged, while the returned
`toAccount` row shows the intermediate balance and the returned
`fromAccount` row the final (original) one. -/
theorem transferTx_same_account_run (f : Faults) (p : CreateTransferParams)
    (s : DBState) (a : Account)
    (hbg : f.beginFails = false) (hcm : f.commitFails = false)
    (hft : f.failCreateTransfer = false) (hf1 : f.failCreateFromEntry = false)
    (hf2 : f.failCreateToEntry = false) (hb1 : f.failBalanceFirst = false)
    (hb2 : f.failBalanceSecond = false)
    (heq : p.fromAccountID = p.toAccountID)
    (ha : s.accounts p.fromAccountID = some a) :
    (TransferTx f p s).2.2 = none ∧
    (TransferTx f p s).1 =
      ⟨⟨s.nextTransferID, p.fromAccountID, p.toAccountID, p.amount⟩,
       a,
       { a with balance := a.balance + p.amount },
       ⟨s.nextEntryID, p.fromAccountID, -p.amount⟩,
       ⟨s.nextEntryID + 1, p.toAccountID, p.amount⟩⟩ ∧
    (TransferTx f p s).2.1.accounts p.fromAccountID = some a ∧
    (TransferTx f p s).2.1.transfers =
      s.transfers ++ [⟨s.nextTransferID, p.fromAccountID, p.toAccountID, p.amount⟩] ∧
    (TransferTx f p s).2.1.entries =
      s.entries ++ [⟨s.nextEntryID, p.fromAccountID, -p.amount⟩,
                    ⟨s.nextEntryID + 1, p.toAccountID, p.amount⟩] ∧
    (TransferTx f p s).2.1.updateLog =
      s.updateLog ++ [(p.toAccountID, p.amount), (p.fromAccountID, -p.amount)] := by
  have hlt : ¬(p.fromAccountID < p.toAccountID) := by
    rw [heq]
    exact lt_irrefl _
  rw [heq] at ha
  refine ⟨?_, ?_, ?_, ?_, ?_, ?_⟩ <;>
    simp [TransferTx, execTx, transferTxBody, createTransfer, createEntry,
      AddAccountBalanceOrder, addAccountBalance, hbg, hcm, hft, hf1, hf2,
      hb1, hb2, hlt, heq, ha]

/-! ### Claim theorems -/

/-- C4: for every step function run through `execTx` (with the transaction
successfully begun): if the step fails and the rollback also fails, the
returned error is the composite `txRb` carrying both the step error and the
rollback error; if the step fails and rollback succeeds, exactly the step
error is returned; if the step succeeds, the commit outcome is returned. -/
theorem execTx_error_composition {α : Type} (f : Faults) (r0 : α)
    (fn : DBState → α × DBState × Option Err) (s : DBState)
    (hb : f.beginFails = false) :
    (∀ r s1 err, fn s = (r, s1, some err) → f.rollbackFails = true →
        execTx f r0 fn s = (r, s1, some (Err.txRb err Err.rollbackFailed))) ∧
    (∀ r s1 err, fn s = (r, s1, some err) → f.rollbackFails = false →
        execTx f r0 fn s = (r, s1, some err)) ∧
    (∀ r s1, fn s = (r, s1, none) →
        execTx f r0 fn s = (r, s1, if f.commitFails then some Err.commitFailed else none)) := by
  refine ⟨?_, ?_, ?_⟩
  · intro r s1 err hfn hrb
    simp [execTx, hb, hfn, hrb]
  · intro r s1 err hfn hrb
    simp [execTx, hb, hfn, hrb]
  · intro r s1 hfn
    cases hcf : f.commitFails <;> simp [execTx, hb, hfn, hcf]

/-- Witness for C4 at a concrete input: step fails with `injected 7` and the
rollback fails too, so the composite error carrying both causes comes back. -/
theorem execTx_error_composition_witness :
    execTx ⟨false, false, true, false, false, false, false, false⟩ (0 : Nat)
      (fun s => (1, s, some (Err.injected 7))) demoState =
      (1, demoState, some (Err.txRb (Err.injected 7) Err.rollbackFailed)) :=
  (execTx_error_composition ⟨false, false, true, false, false, false, false, false⟩ 0
      (fun s => (1, s, some (Err.injected 7))) demoState rfl).1 1 demoState
      (Err.injected 7) rfl rfl

/-- C3: for distinct participating accounts, `AddAccountBalanceOrder` issues
the balance update of the smaller identifier strictly before that of the
larger identifier, and the order is a function of `min a b` vs `max a b`
only (the statement is invariant under swapping which side is source, since
`a` and `b` are universally quantified and `min`/`max` are symmetric), while
each account receives the signed delta of its role: `-amount` on the source
`a`, `+amount` on the destination `b`. -/
theorem addAccountBalanceOrder_update_order (f : Faults) (s : DBState)
    (a b amount : Int) (acc : Account) (hne : a ≠ b)
    (h1 : f.failBalanceFirst = false)
    (hmin : s.accounts (min a b) = some acc) :
    (AddAccountBalanceOrder f s a b amount).2.2.1.updateLog =
      s.updateLog ++
        [(min a b, if min a b = a then -amount else amount),
         (max a b, if max a b = a then -amount else amount)] := by
  rcases lt_trichotomy a b with hab | hab | hab
  · rw [min_eq_left hab.le] at hmin ⊢
    rw [max_eq_right hab.le]
    simp [AddAccountBalanceOrder, if_pos hab, h1,
      addAccountBalance_success 3 s ⟨-amount, a⟩ acc hmin,
      addAccountBalance_log, hab.ne']
  · exact absurd hab hne
  · rw [min_eq_right hab.le] at hmin ⊢
    rw [max_eq_left hab.le]
    simp [AddAccountBalanceOrder, if_neg (not_lt.mpr hab.le), h1,
      addAccountBalance_success 3 s ⟨amount, b⟩ acc hmin,
      addAccountBalance_log, hab.ne]

/-- Witness for C3 at a concrete input: a transfer from account 2 to
account 1 (source id larger) still issues the update of account 1 first. -/
theorem addAccountBalanceOrder_update_order_witness :
    (AddAccountBalanceOrder noFaults demoState 2 1 30).2.2.1.updateLog =
      demoState.updateLog ++
        [(min 2 1, if min 2 1 = (2 : Int) then -(30 : Int) else 30),
         (max 2 1, if max 2 1 = (2 : Int) then -(30 : Int) else 30)] :=
  addAccountBalanceOrder_update_order noFaults demoState 2 1 30
    ⟨1, "alice", 100, "USD"⟩ (by decide) rfl (by decide)

/-- C1: whenever `TransferTx` succeeds on a transfer between two distinct
existing accounts, the destination balance after equals its balance before
plus `amount`, the source balance after equals its balance before minus
`amount`, the two created entries carry `-amount` (source account) and
`+amount` (destination account) and sum to zero, and the returned
`TransferTxResult` carries exactly the post-update account rows. -/
theorem transferTx_success_balances (f : Faults) (p : CreateTransferParams)
    (s : DBState) (af at2 : Account) (r : TransferTxResult) (s2 : DBState)
    (hne : p.fromAccountID ≠ p.toAccountID)
    (hfa : s.accounts p.fromAccountID = some af)
    (hta : s.accounts p.toAccountID = some at2)
    (hrun : TransferTx f p s = (r, s2, none)) :
    s2.accounts p.fromAccountID = some { af with balance := af.balance - p.amount } ∧
    s2.accounts p.toAccountID = some { at2 with balance := at2.balance + p.amount } ∧
    r.fromEntry.accountID = p.fromAccountID ∧ r.fromEntry.amount = -p.amount ∧
    r.toEntry.accountID = p.toAccountID ∧ r.toEntry.amount = p.amount ∧
    r.fromEntry.amount + r.toEntry.amount = 0 ∧
    r.fromAccount = { af with balance := af.balance - p.amount } ∧
    r.toAccount = { at2 with balance := at2.balance + p.amount } ∧
    s2.accounts p.fromAccountID = some r.fromAccount ∧
    s2.accounts p.toAccountID = some r.toAccount := by
  have hnone : (execTx f zeroResult (transferTxBody f p) s).2.2 = none := by
    rw [show execTx f zeroResult (transferTxBody f p) s = TransferTx f p s from rfl, hrun]
  obtain ⟨hbg, hbody, hcm, _⟩ := execTx_eq_none_inv f zeroResult (transferTxBody f p) s hnone
  obtain ⟨hft, hf1, hf2, hb1, hb2⟩ := transferTxBody_eq_none_flags f p s hbody
  obtain ⟨_, hres, hfa2, hta2, _, _, _, _, _, _⟩ :=
    transferTx_success_run f p s af at2 hbg hcm hft hf1 hf2 hb1 hb2 hne hfa hta
  rw [hrun] at hres hfa2 hta2
  have hres2 : r =
      ⟨⟨s.nextTransferID, p.fromAccountID, p.toAccountID, p.amount⟩,
       { af with balance := af.balance + -p.amount },
       { at2 with balance := at2.balance + p.amount },
       ⟨s.nextEntryID, p.fromAccountID, -p.amount⟩,
       ⟨s.nextEntryID + 1, p.toAccountID, p.amount⟩⟩ := hres
  have hfa3 : s2.accounts p.fromAccountID =
      some { af with balance := af.balance + -p.amount } := hfa2
  have hta3 : s2.accounts p.toAccountID =
      some { at2 with balance := at2.balance + p.amount } := hta2
  subst hres2
  refine ⟨?_, ?_, ?_, ?_, ?_, ?_, ?_, ?_, ?_, ?_, ?_⟩ <;>
    simp [hfa3, hta3, sub_eq_add_neg]

/-- Witness for C1 at the spec's worked example: transfer 30 from account 1
(balance 100) to account 2 (balance 50). -/
theorem transferTx_success_balances_witness :
    (TransferTx noFaults ⟨1, 2, 30⟩ demoState).2.1.accounts 1 =
      some ⟨1, "alice", 70, "USD"⟩ ∧
    (TransferTx noFaults ⟨1, 2, 30⟩ demoState).2.1.accounts 2 =
      some ⟨2, "bob", 80, "USD"⟩ := by
  have h := transferTx_success_balances noFaults ⟨1, 2, 30⟩ demoState
    ⟨1, "alice", 100, "USD"⟩ ⟨2, "bob", 50, "USD"⟩
    (TransferTx noFaults ⟨1, 2, 30⟩ demoState).1
    (TransferTx noFaults ⟨1, 2, 30⟩ demoState).2.1
    (by decide) (by decide) (by decide) rfl
  exact ⟨by simpa using h.1, by simpa using h.2.1⟩

/-- C8: every execution of `TransferTx` — fault-free or not — leaves the
balance of every account other than the two participants unchanged and
never modifies or deletes an existing Transfer or Entry row (the tables
before are a prefix of the tables after); when the execution succeeds it
appends exactly one Transfer row and exactly two Entry rows. -/
theorem transferTx_frame (f : Faults) (p : CreateTransferParams) (s : DBState)
    (r : TransferTxResult) (s2 : DBState) (e : Option Err)
    (hrun : TransferTx f p s = (r, s2, e)) :
    (∀ j, j ≠ p.fromAccountID → j ≠ p.toAccountID →
      s2.accounts j = s.accounts j) ∧
    s.transfers <+: s2.transfers ∧
    s.entries <+: s2.entries ∧
    (e = none →
      s2.transfers = s.transfers ++
        [⟨s.nextTransferID, p.fromAccountID, p.toAccountID, p.amount⟩] ∧
      s2.entries = s.entries ++
        [⟨s.nextEntryID, p.fromAccountID, -p.amount⟩,
         ⟨s.nextEntryID + 1, p.toAccountID, p.amount⟩]) := by
  cases hbg : f.beginFails
  · have hproj := execTx_proj f zeroResult (transferTxBody f p) s hbg
    have hs2 : s2 = (transferTxBody f p s).2.1 := by
      have h := hproj.2
      rw [show execTx f zeroResult (transferTxBody f p) s = TransferTx f p s from rfl,
        hrun] at h
      exact h
    subst hs2
    refine ⟨fun j hj1 hj2 => transferTxBody_accounts_other f p s j hj1 hj2,
      transferTxBody_transfers_grow f p s, transferTxBody_entries_grow f p s,
      fun he => ?_⟩
    have hnone : (execTx f zeroResult (transferTxBody f p) s).2.2 = none := by
      rw [show execTx f zeroResult (transferTxBody f p) s = TransferTx f p s from rfl,
        hrun]
      exact he
    obtain ⟨-, hbody, -, -⟩ := execTx_eq_none_inv f zeroResult (transferTxBody f p) s hnone
    obtain ⟨hft, hf1, hf2, -, -⟩ := transferTxBody_eq_none_flags f p s hbody
    exact transferTxBody_tables f p s hft hf1 hf2
  · have hrun2 : TransferTx f p s = (zeroResult, s, some Err.beginFailed) := by
      simp [TransferTx, execTx, hbg]
    rw [hrun] at hrun2
    simp only [Prod.mk.injEq] at hrun2
    obtain ⟨-, hs2, he⟩ := hrun2
    subst hs2
    refine ⟨fun j _ _ => rfl, List.prefix_rfl, List.prefix_rfl, fun hnone => ?_⟩
    rw [he] at hnone
    simp at hnone

/-- Witness for C8 at a concrete input: after a successful transfer between
accounts 1 and 2, account 5's row is untouched and exactly one transfer row
was appended. -/
theorem transferTx_frame_witness :
    (TransferTx noFaults ⟨1, 2, 30⟩ demoState).2.1.accounts 5 = demoState.accounts 5 ∧
    (TransferTx noFaults ⟨1, 2, 30⟩ demoState).2.1.transfers =
      demoState.transfers ++ [⟨1, 1, 2, 30⟩] := by
  have h := transferTx_frame noFaults ⟨1, 2, 30⟩ demoState
    (TransferTx noFaults ⟨1, 2, 30⟩ demoState).1
    (TransferTx noFaults ⟨1, 2, 30⟩ demoState).2.1
    (TransferTx noFaults ⟨1, 2, 30⟩ demoState).2.2 rfl
  refine ⟨h.1 5 (by decide) (by decide), ?_⟩
  have h2 := h.2.2.2 (by decide)
  simpa [demoState] using h2.1

/-- C10: `TransferTx` with `fromAccountID = toAccountID` is not rejected: a
transfer row and two entries (amounts `-amount` and `+amount`) are created
for the single account, the balance update takes the else branch of
`AddAccountBalanceOrder` issuing `+amount` first and `-amount` second, the
net persisted balance change is zero, and the returned `toAccount` shows the
balance after `+amount` while the returned `fromAccount` shows the final
(original) balance. -/
theorem transferTx_same_account (p : CreateTransferParams) (s : DBState)
    (a : Account) (heq : p.fromAccountID = p.toAccountID)
    (ha : s.accounts p.fromAccountID = some a) :
    (TransferTx noFaults p s).2.2 = none ∧
    (TransferTx noFaults p s).2.1.transfers =
      s.transfers ++ [⟨s.nextTransferID, p.fromAccountID, p.toAccountID, p.amount⟩] ∧
    (TransferTx noFaults p s).2.1.entries =
      s.entries ++ [⟨s.nextEntryID, p.fromAccountID, -p.amount⟩,
                    ⟨s.nextEntryID + 1, p.toAccountID, p.amount⟩] ∧
    (TransferTx noFaults p s).2.1.updateLog =
      s.updateLog ++ [(p.toAccountID, p.amount), (p.fromAccountID, -p.amount)] ∧
    (TransferTx noFaults p s).2.1.accounts p.fromAccountID = some a ∧
    (TransferTx noFaults p s).1.toAccount = { a with balance := a.balance + p.amount } ∧
    (TransferTx noFaults p s).1.fromAccount = a := by
  obtain ⟨h1, h2, h3, h4, h5, h6⟩ :=
    transferTx_same_account_run noFaults p s a rfl rfl rfl rfl rfl rfl rfl heq ha
  exact ⟨h1, h4, h5, h6, h3, by rw [h2], by rw [h2]⟩

/-- Witness for C10 at a concrete input: a self-transfer of 30 on account 2
(balance 50) succeeds, leaves the balance at 50, and reports `toAccount`
with the intermediate balance 80. -/
theorem transferTx_same_account_witness :
    (TransferTx noFaults ⟨2, 2, 30⟩ demoState).2.2 = none ∧
    (TransferTx noFaults ⟨2, 2, 30⟩ demoState).2.1.accounts 2 =
      some ⟨2, "bob", 50, "USD"⟩ ∧
    (TransferTx noFaults ⟨2, 2, 30⟩ demoState).1.toAccount = ⟨2, "bob", 80, "USD"⟩ ∧
    (TransferTx noFaults ⟨2, 2, 30⟩ demoState).1.fromAccount = ⟨2, "bob", 50, "USD"⟩ := by
  have h := transferTx_same_account ⟨2, 2, 30⟩ demoState ⟨2, "bob", 50, "USD"⟩
    rfl (by decide)
  refine ⟨h.1, h.2.2.2.2.1, ?_, h.2.2.2.2.2.2⟩
  rw [h.2.2.2.2.2.1]
  decide

/-- C5 counterexample: a call with identical source and destination and
non-positive amount is not rejected with a validation error before any
transaction — it runs to completion with no error and reaches transfer
creation, entry creation and the balance-update step. -/
theorem transferTx_no_validation_counterexample :
    (TransferTx noFaults ⟨1, 1, 0⟩ demoState).2.2 = none ∧
    (TransferTx noFaults ⟨1, 1, 0⟩ demoState).2.1.transfers = [⟨1, 1, 1, 0⟩] ∧
    (TransferTx noFaults ⟨1, 1, 0⟩ demoState).2.1.entries.length = 2 ∧
    (TransferTx noFaults ⟨1, 1, 0⟩ demoState).2.1.updateLog.length = 2 := by
  decide

/-- C5 amended: `TransferTx` performs no argument validation.  A call with a
non-positive amount or with identical source and destination is not
rejected: the step sequence runs, the transfer row is created, both entries
are created and both balance updates are issued (the call succeeds whenever
the referenced accounts exist and no store fault occurs). -/
theorem transferTx_no_validation (p : CreateTransferParams) (s : DBState)
    (af at2 : Account)
    (hbad : p.amount ≤ 0 ∨ p.fromAccountID = p.toAccountID)
    (hfa : s.accounts p.fromAccountID = some af)
    (hta : s.accounts p.toAccountID = some at2) :
    (TransferTx noFaults p s).2.2 = none ∧
    (TransferTx noFaults p s).2.1.transfers =
      s.transfers ++ [⟨s.nextTransferID, p.fromAccountID, p.toAccountID, p.amount⟩] ∧
    (TransferTx noFaults p s).2.1.entries.length = s.entries.length + 2 ∧
    (TransferTx noFaults p s).2.1.updateLog.length = s.updateLog.length + 2 := by
  by_cases heq : p.fromAccountID = p.toAccountID
  · obtain ⟨h1, -, -, h4, h5, h6⟩ :=
      transferTx_same_account_run noFaults p s af rfl rfl rfl rfl rfl rfl rfl heq hfa
    exact ⟨h1, h4, by simp [h5], by simp [h6]⟩
  · obtain ⟨h1, -, -, -, -, h6, h7, -, -, h10⟩ :=
      transferTx_success_run noFaults p s af at2 rfl rfl rfl rfl rfl rfl rfl heq hfa hta
    refine ⟨h1, h6, by simp [h7], ?_⟩
    rw [h10]
    by_cases hlt : p.fromAccountID < p.toAccountID <;> simp [hlt]

/-- Witness for C5's amended claim at a concrete input: a transfer of the
non-positive amount -5 from account 1 to itself is accepted and runs every
step. -/
theorem transferTx_no_validation_witness :
    (TransferTx noFaults ⟨1, 1, -5⟩ demoState).2.2 = none ∧
    (TransferTx noFaults ⟨1, 1, -5⟩ demoState).2.1.transfers =
      demoState.transfers ++ [⟨demoState.nextTransferID, 1, 1, -5⟩] ∧
    (TransferTx noFaults ⟨1, 1, -5⟩ demoState).2.1.entries.length =
      demoState.entries.length + 2 ∧
    (TransferTx noFaults ⟨1, 1, -5⟩ demoState).2.1.updateLog.length =
      demoState.updateLog.length + 2 :=
  transferTx_no_validation ⟨1, 1, -5⟩ demoState ⟨1, "alice", 100, "USD"⟩
    ⟨1, "alice", 100, "USD"⟩ (Or.inl (by decide)) (by decide) (by decide)

/-- C2: demonstration that the claim fails on the code.  The closure that
`TransferTx` hands to `execTx` ignores the transaction-scoped handle and
runs every query on the base store, so when the destination-entry creation
fails the already-executed transfer insert and source-entry insert are NOT
rolled back: the error is propagated but the partial state persists.  A
failure during the second balance update even leaves a non-zero net balance
change on the source account. -/
theorem transferTx_rollback_leaks_partial_state :
    (TransferTx ⟨false, false, false, false, false, true, false, false⟩
        ⟨1, 2, 30⟩ demoState).2.2 = some (Err.injected 2) ∧
    (TransferTx ⟨false, false, false, false, false, true, false, false⟩
        ⟨1, 2, 30⟩ demoState).2.1.transfers = [⟨1, 1, 2, 30⟩] ∧
    (TransferTx ⟨false, false, false, false, false, true, false, false⟩
        ⟨1, 2, 30⟩ demoState).2.1.entries = [⟨1, 1, -30⟩] ∧
    (TransferTx ⟨false, false, false, false, false, false, false, true⟩
        ⟨1, 2, 30⟩ demoState).2.2 = some (Err.injected 4) ∧
    (TransferTx ⟨false, false, false, false, false, false, false, true⟩
        ⟨1, 2, 30⟩ demoState).2.1.accounts 1 = some ⟨1, "alice", 70, "USD"⟩ := by
  decide

/-- C6: two successive `TransferTx` calls with identical arguments are not
deduplicated: both succeed, two distinct transfer rows are appended (and two
distinct pairs of entries — four entry rows in total), and the balance
deltas apply twice, leaving the source at `-2*amount` and the destination at
`+2*amount` relative to the initial balances. -/
theorem transferTx_no_dedup (p : CreateTransferParams) (s : DBState)
    (af at2 : Account)
    (hne : p.fromAccountID ≠ p.toAccountID)
    (hfa : s.accounts p.fromAccountID = some af)
    (hta : s.accounts p.toAccountID = some at2) :
    (TransferTx noFaults p s).2.2 = none ∧
    (TransferTx noFaults p (TransferTx noFaults p s).2.1).2.2 = none ∧
    (TransferTx noFaults p (TransferTx noFaults p s).2.1).2.1.transfers =
      s.transfers ++
        [⟨s.nextTransferID, p.fromAccountID, p.toAccountID, p.amount⟩,
         ⟨s.nextTransferID + 1, p.fromAccountID, p.toAccountID, p.amount⟩] ∧
    (⟨s.nextTransferID, p.fromAccountID, p.toAccountID, p.amount⟩ : Transfer) ≠
      ⟨s.nextTransferID + 1, p.fromAccountID, p.toAccountID, p.amount⟩ ∧
    (TransferTx noFaults p (TransferTx noFaults p s).2.1).2.1.entries.length =
      s.entries.length + 4 ∧
    (TransferTx noFaults p (TransferTx noFaults p s).2.1).2.1.accounts p.fromAccountID =
      some { af with balance := af.balance - 2 * p.amount } ∧
    (TransferTx noFaults p (TransferTx noFaults p s).2.1).2.1.accounts p.toAccountID =
      some { at2 with balance := at2.balance + 2 * p.amount } := by
  obtain ⟨e1, -, hfa1, hta1, -, htr1, hen1, hnt1, hni1, -⟩ :=
    transferTx_success_run noFaults p s af at2 rfl rfl rfl rfl rfl rfl rfl hne hfa hta
  obtain ⟨e2, -, hfa2, hta2, -, htr2, hen2, -, -, -⟩ :=
    transferTx_success_run noFaults p (TransferTx noFaults p s).2.1
      { af with balance := af.balance + -p.amount }
      { at2 with balance := at2.balance + p.amount }
      rfl rfl rfl rfl rfl rfl rfl hne hfa1 hta1
  refine ⟨e1, e2, ?_, ?_, ?_, ?_, ?_⟩
  · rw [htr2, htr1, hnt1]
    simp
  · simp [Transfer.mk.injEq]
  · rw [hen2, hen1]
    simp [List.length_append]
  · rw [hfa2]
    simp [Account.mk.injEq]
    ring
  · rw [hta2]
    simp [Account.mk.injEq]
    ring

/-- Witness for C6 at a concrete input: transferring 30 from account 1 to
account 2 twice leaves balances 40 and 110. -/
theorem transferTx_no_dedup_witness :
    (TransferTx noFaults ⟨1, 2, 30⟩
        (TransferTx noFaults ⟨1, 2, 30⟩ demoState).2.1).2.1.accounts 1 =
      some ⟨1, "alice", 40, "USD"⟩ ∧
    (TransferTx noFaults ⟨1, 2, 30⟩
        (TransferTx noFaults ⟨1, 2, 30⟩ demoState).2.1).2.1.accounts 2 =
      some ⟨2, "bob", 110, "USD"⟩ := by
  have h := transferTx_no_dedup ⟨1, 2, 30⟩ demoState ⟨1, "alice", 100, "USD"⟩
    ⟨2, "bob", 50, "USD"⟩ (by decide) (by decide) (by decide)
  constructor
  · rw [h.2.2.2.2.2.1]
    decide
  · rw [h.2.2.2.2.2.2]
    decide

/-- C9: when a step of `TransferTx` fails, the captured result returned
alongside the error carries exactly the fields populated by the steps that
succeeded before the failing one: nothing when transfer creation fails, the
transfer row when the source entry fails, transfer plus source entry when
the destination entry fails, all three rows (with zero-value account fields)
when the first balance update fails, and additionally the first updated
account row — the one with the smaller id — when only the second balance
update fails. -/
theorem transferTx_partial_result (p : CreateTransferParams) (s : DBState)
    (af at2 : Account)
    (hne : p.fromAccountID ≠ p.toAccountID)
    (hfa : s.accounts p.fromAccountID = some af)
    (hta : s.accounts p.toAccountID = some at2) :
    (TransferTx ⟨false, false, false, true, false, false, false, false⟩ p s).1 =
      zeroResult ∧
    (TransferTx ⟨false, false, false, true, false, false, false, false⟩ p s).2.2 =
      some (Err.injected 0) ∧
    (TransferTx ⟨false, false, false, false, true, false, false, false⟩ p s).1 =
      { zeroResult with
        transfer := ⟨s.nextTransferID, p.fromAccountID, p.toAccountID, p.amount⟩ } ∧
    (TransferTx ⟨false, false, false, false, true, false, false, false⟩ p s).2.2 =
      some (Err.injected 1) ∧
    (TransferTx ⟨false, false, false, false, false, true, false, false⟩ p s).1 =
      { zeroResult with
        transfer := ⟨s.nextTransferID, p.fromAccountID, p.toAccountID, p.amount⟩,
        fromEntry := ⟨s.nextEntryID, p.fromAccountID, -p.amount⟩ } ∧
    (TransferTx ⟨false, false, false, false, false, true, false, false⟩ p s).2.2 =
      some (Err.injected 2) ∧
    (TransferTx ⟨false, false, false, false, false, false, true, false⟩ p s).1 =
      ⟨⟨s.nextTransferID, p.fromAccountID, p.toAccountID, p.amount⟩,
       zeroAccount, zeroAccount,
       ⟨s.nextEntryID, p.fromAccountID, -p.amount⟩,
       ⟨s.nextEntryID + 1, p.toAccountID, p.amount⟩⟩ ∧
    (TransferTx ⟨false, false, false, false, false, false, true, false⟩ p s).2.2 =
      some (Err.injected 3) ∧
    (TransferTx ⟨false, false, false, false, false, false, false, true⟩ p s).1 =
      ⟨⟨s.nextTransferID, p.fromAccountID, p.toAccountID, p.amount⟩,
       (if p.fromAccountID < p.toAccountID
        then { af with balance := af.balance + -p.amount } else zeroAccount),
       (if p.fromAccountID < p.toAccountID
        then zeroAccount else { at2 with balance := at2.balance + p.amount }),
       ⟨s.nextEntryID, p.fromAccountID, -p.amount⟩,
       ⟨s.nextEntryID + 1, p.toAccountID, p.amount⟩⟩ ∧
    (TransferTx ⟨false, false, false, false, false, false, false, true⟩ p s).2.2 =
      some (Err.injected 4) := by
  by_cases hlt : p.fromAccountID < p.toAccountID <;>
    refine ⟨?_, ?_, ?_, ?_, ?_, ?_, ?_, ?_, ?_, ?_⟩ <;>
    simp [TransferTx, execTx, transferTxBody, createTransfer, createEntry,
      AddAccountBalanceOrder, addAccountBalance, hlt, hfa, hta, hne,
      Ne.symm hne, zeroResult]

/-- Witness for C9 at a concrete input: when the destination entry creation
fails, the returned result still carries the created transfer and the source
entry. -/
theorem transferTx_partial_result_witness :
    (TransferTx ⟨false, false, false, false, false, true, false, false⟩
        ⟨1, 2, 30⟩ demoState).1 =
      { zeroResult with transfer := ⟨1, 1, 2, 30⟩, fromEntry := ⟨1, 1, -30⟩ } ∧
    (TransferTx ⟨false, false, false, false, false, true, false, false⟩
        ⟨1, 2, 30⟩ demoState).2.2 = some (Err.injected 2) := by
  have h := transferTx_partial_result ⟨1, 2, 30⟩ demoState ⟨1, "alice", 100, "USD"⟩
    ⟨2, "bob", 50, "USD"⟩ (by decide) (by decide) (by decide)
  exact ⟨h.2.2.2.2.1, h.2.2.2.2.2.1⟩

/-- `AddAccountBalanceOrder` acquires the two balance-row locks in the fixed
global order: smaller account id first. -/
theorem acquisitionIDs_eq (a b m : Int) :
    acquisitionIDs a b m = [min a b, max a b] := by
  rcases lt_trichotomy a b with hab | hab | hab
  · rw [min_eq_left hab.le, max_eq_right hab.le]
    simp [acquisitionIDs, AddAccountBalanceOrder, addAccountBalance,
      probeState, allAccounts, noFaults, hab, hab.ne']
  · subst hab
    simp [acquisitionIDs, AddAccountBalanceOrder, addAccountBalance,
      probeState, allAccounts, noFaults, lt_irrefl]
  · rw [min_eq_right hab.le, max_eq_left hab.le]
    simp [acquisitionIDs, AddAccountBalanceOrder, addAccountBalance,
      probeState, allAccounts, noFaults, not_lt.mpr hab.le, hab.ne']

/-- Resource-ordering progress: if every process acquires its locks in
strictly increasing order of a global total order, then in every
configuration in which some process still wants a lock, either some process
already holds everything it needs (and can complete and release), or some
process's next lock is held by nobody (and it can advance).  Hence no
configuration is a deadlock. -/
theorem lock_order_progress (ps : List LockProc)
    (hsort : ∀ q ∈ ps, List.Chain' (· < ·) (q.held ++ q.want))
    (hbusy : ∃ q ∈ ps, q.want ≠ []) :
    (∃ q ∈ ps, q.want = [] ∧ q.held ≠ []) ∨
    (∃ q ∈ ps, ∃ n, q.want.head? = some n ∧ ∀ q2 ∈ ps, n ∉ q2.held) := by
  by_cases hrel : ∃ q ∈ ps, q.want = [] ∧ q.held ≠ []
  · exact Or.inl hrel
  right
  push_neg at hrel
  obtain ⟨q1, hq1mem, hq1want⟩ := hbusy
  have hq1c : q1 ∈ ps.filter (fun q => !q.want.isEmpty) :=
    List.mem_filter.mpr ⟨hq1mem, by simp [hq1want]⟩
  rcases hargm : (ps.filter (fun q => !q.want.isEmpty)).argmax
      (fun q => q.want.head?.getD 0) with _ | q0
  · rw [List.argmax_eq_none] at hargm
    rw [hargm] at hq1c
    cases hq1c
  have hq0c : q0 ∈ ps.filter (fun q => !q.want.isEmpty) :=
    List.argmax_mem (Option.mem_def.mpr hargm)
  obtain ⟨hq0ps, hq0w⟩ := List.mem_filter.mp hq0c
  have hq0want : q0.want ≠ [] := by simpa using hq0w
  rcases hw : q0.want with _ | ⟨n, rest⟩
  · exact absurd hw hq0want
  refine ⟨q0, hq0ps, n, by rw [hw]; rfl, ?_⟩
  intro q2 hq2 hn2
  have hq2held : q2.held ≠ [] := by
    intro h0
    rw [h0] at hn2
    cases hn2
  have hq2want : q2.want ≠ [] := fun hw2 => hq2held (hrel q2 hq2 hw2)
  have hq2c : q2 ∈ ps.filter (fun q => !q.want.isEmpty) :=
    List.mem_filter.mpr ⟨hq2, by simp [hq2want]⟩
  rcases hw2 : q2.want with _ | ⟨m2, rest2⟩
  · exact hq2want hw2
  have hpair := List.chain'_iff_pairwise.mp (hsort q2 hq2)
  have hlt : n < m2 := by
    refine (List.pairwise_append.mp hpair).2.2 n hn2 m2 ?_
    rw [hw2]
    exact List.mem_cons_self _ _
  have hmax := List.le_of_mem_argmax hq2c (Option.mem_def.mpr hargm)
  simp only [hw, hw2, List.head?_cons, Option.getD_some] at hmax
  omega

/-- C7: no two (indeed no N) concurrent transfer executions over pairs of
distinct accounts can circular-wait: each execution acquires its two
account-row locks in the order issued by `AddAccountBalanceOrder`, which is
always increasing in the account id, so every configuration of concurrently
running transfers — each holding a prefix of its acquisition sequence —
always has an execution that can make progress: one that holds all its locks
and can commit, or one whose next lock is held by no other execution.
Deadlock states do not exist, so all executions terminate (commit or return
their typed error). -/
theorem transfer_system_deadlock_free (ps : List LockProc)
    (htransfers : ∀ q ∈ ps, ∃ a b m, a ≠ b ∧ q.held ++ q.want = acquisitionIDs a b m)
    (hbusy : ∃ q ∈ ps, q.want ≠ []) :
    (∃ q ∈ ps, q.want = [] ∧ q.held ≠ []) ∨
    (∃ q ∈ ps, ∃ n, q.want.head? = some n ∧ ∀ q2 ∈ ps, n ∉ q2.held) := by
  refine lock_order_progress ps (fun q hq => ?_) hbusy
  obtain ⟨a, b, m, hne, heq⟩ := htransfers q hq
  rw [heq, acquisitionIDs_eq]
  simp only [List.chain'_cons, List.chain'_singleton, and_true]
  exact min_lt_max.mpr hne

/-- Witness for C7 at a concrete configuration: two transfers between
accounts 3 and 7 running in opposite directions, one already holding the
lock on account 3. -/
theorem transfer_system_deadlock_free_witness :
    (∃ q ∈ [(⟨[3], [7]⟩ : LockProc), ⟨[], [3, 7]⟩], q.want = [] ∧ q.held ≠ []) ∨
    (∃ q ∈ [(⟨[3], [7]⟩ : LockProc), ⟨[], [3, 7]⟩], ∃ n,
      q.want.head? = some n ∧
      ∀ q2 ∈ [(⟨[3], [7]⟩ : LockProc), ⟨[], [3, 7]⟩], n ∉ q2.held) := by
  refine transfer_system_deadlock_free _ ?_ ⟨⟨[3], [7]⟩, by simp, by simp⟩
  intro q hq
  rcases List.mem_cons.mp hq with h | h
  · subst h
    exact ⟨3, 7, 5, by decide, by decide⟩
  · rcases List.mem_cons.mp h with h2 | h2
    · subst h2
      exact ⟨7, 3, 5, by decide, by decide⟩
    · cases h2

end SimpleBank
